import Mathlib

/-!
# Verification of the AssistantBot resumable conversational workflow engine

Shallow embedding of the engine's core (message model, state serializer,
tool dispatcher, routing, workflow registry, session handlers) translated
from the Python sources under `src/`, together with theorems settling the
specification's claims about them.
-/

set_option autoImplicit false

namespace AssistantBot

/-! ## Plain values

Scalar JSON-serializable values, used for tool arguments, tool results and
workflow-specific state extension fields.  `jsonEncode` models `json.dumps`
on these scalars (`tool_node.py` wraps every tool result through it). -/

inductive PVal where
  | str (s : String)
  | int (n : Int)
  | bool (b : Bool)
  | null
deriving DecidableEq, Repr

/-- Models `json.dumps(tool_result, ensure_ascii=False)` on scalar results
(string quoting as in JSON; escaping of special characters inside the string
is not modelled because no claim depends on it). -/
def PVal.jsonEncode : PVal → String
  | .str s => "\"" ++ s ++ "\""
  | .int n => toString n
  | .bool true => "true"
  | .bool false => "false"
  | .null => "null"

/-! ## Python `dict` model

Insertion-ordered association lists with Python-`dict` update semantics:
`insert` replaces the value at the first occurrence of the key in place, or
appends a fresh entry at the end; `get?` returns the first binding. -/

namespace Dict

variable {α : Type}

/-- `d[k]` / `d.get(k)`: the first binding of `k`, if any. -/
def get? (d : List (String × α)) (k : String) : Option α :=
  match d with
  | [] => none
  | (k', v) :: rest => if k' = k then some v else get? rest k

/-- `d[k] = v`: replace the binding of `k` in place, or append it. -/
def insert (d : List (String × α)) (k : String) (v : α) : List (String × α) :=
  match d with
  | [] => [(k, v)]
  | (k', v') :: rest => if k' = k then (k, v) :: rest else (k', v') :: insert rest k v

/-- `k in d`. -/
def containsKey (d : List (String × α)) (k : String) : Bool :=
  match d with
  | [] => false
  | (k', _) :: rest => if k' = k then true else containsKey rest k

/-- Number of entries carrying key `k` (a real `dict` always has 0 or 1). -/
def keysCount (d : List (String × α)) (k : String) : Nat :=
  match d with
  | [] => 0
  | (k', _) :: rest => (if k' = k then 1 else 0) + keysCount rest k

end Dict

/-! ## Message model (`langchain_core.messages`, as used by this repository)

A closed tagged variant over {System, Human, AI, Tool} plus the generic
`BaseMessage`, which `state_serializer.py` uses as the fallback class for
unrecognised tags.  `ToolCall` is the structured tool-call request carried
by AI messages (`{"name": ..., "args": ..., "id": ...}`). -/

structure ToolCall where
  name : String
  args : List (String × PVal)
  id : String
deriving DecidableEq, Repr

inductive Message where
  | system (content : String)
  | human (content : String)
  | ai (content : String) (tool_calls : List ToolCall)
  | tool (content : String) (name : Option String) (tool_call_id : String)
  /-- A `BaseMessage` instance: the generic base class, tagged with an
  arbitrary `type` string. -/
  | base (type : String) (content : String)
deriving DecidableEq, Repr

/-- `getattr(message, "tool_calls", ...)`: only AI messages carry tool-call
requests; for every other variant the attribute is absent and the `getattr`
default (`None` / `[]`, both falsy/empty) applies. -/
def Message.tool_calls : Message → List ToolCall
  | .ai _ tcs => tcs
  | _ => []

/-- True exactly on the four known variants {System, Human, AI, Tool}. -/
def Message.isKnownVariant : Message → Bool
  | .base _ _ => false
  | _ => true

/-- The plain record produced by `message.model_dump()` and consumed by
`Class.model_validate(...)`: the `type` tag (`msg.get("type")`, hence
optional on the read side) plus the variant fields. -/
structure MsgRecord where
  type : Option String
  content : String
  tool_calls : List ToolCall := []
  name : Option String := none
  tool_call_id : Option String := none
deriving DecidableEq, Repr

/-- `message.model_dump()`: dumps the tag and every variant-specific field. -/
def Message.model_dump : Message → MsgRecord
  | .system c => { type := some "system", content := c }
  | .human c => { type := some "human", content := c }
  | .ai c tcs => { type := some "ai", content := c, tool_calls := tcs }
  | .tool c n id => { type := some "tool", content := c, name := n, tool_call_id := some id }
  | .base t c => { type := some t, content := c }

/-- Errors raised while deserializing (pydantic `ValidationError` on a
missing required field, named here by the field). -/
inductive DeserError where
  | validationError (field : String)
deriving DecidableEq, Repr

/-- `SystemMessage.model_validate(msg)`. -/
def SystemMessage.model_validate (r : MsgRecord) : Except DeserError Message :=
  .ok (.system r.content)

/-- `HumanMessage.model_validate(msg)`. -/
def HumanMessage.model_validate (r : MsgRecord) : Except DeserError Message :=
  .ok (.human r.content)

/-- `AIMessage.model_validate(msg)`: `tool_calls` defaults to `[]`. -/
def AIMessage.model_validate (r : MsgRecord) : Except DeserError Message :=
  .ok (.ai r.content r.tool_calls)

/-- `ToolMessage.model_validate(msg)`: `tool_call_id` is a required field. -/
def ToolMessage.model_validate (r : MsgRecord) : Except DeserError Message :=
  match r.tool_call_id with
  | some id => .ok (.tool r.content r.name id)
  | none => .error (.validationError "tool_call_id")

/-- `BaseMessage.model_validate(msg)`: the generic base class; its `type`
field has no default, so validation requires the tag to be present and
stores it verbatim. -/
def BaseMessage.model_validate (r : MsgRecord) : Except DeserError Message :=
  match r.type with
  | some t => .ok (.base t r.content)
  | none => .error (.validationError "type")

/-! ## State serializer (`src/services/state_serializer.py`) -/

namespace StateSerializer

/-- `cls._message_type_map.get(msg_type, BaseMessage)`: select the class to
validate the record with.  The four known tags map to their variant class;
any other tag (including an absent one) falls back to `BaseMessage`. -/
def selectMsgCls (msg_type : Option String) : MsgRecord → Except DeserError Message :=
  match msg_type with
  | none => BaseMessage.model_validate
  | some t =>
      if t = "human" then HumanMessage.model_validate
      else if t = "ai" then AIMessage.model_validate
      else if t = "tool" then ToolMessage.model_validate
      else if t = "system" then SystemMessage.model_validate
      else BaseMessage.model_validate

/-- `StateSerializer._deserialize_messages`: validate each record with the
class selected by its tag, in order; the first validation error aborts the
whole list (the Python exception propagates). -/
def deserializeMessages : List MsgRecord → Except DeserError (List Message)
  | [] => .ok []
  | r :: rs =>
      match selectMsgCls r.type r with
      | .error e => .error e
      | .ok m =>
          match deserializeMessages rs with
          | .error e => .error e
          | .ok ms => .ok (m :: ms)

end StateSerializer

/-! ## Workflow state (`src/workflows/base.py` `BaseState`)

A `TypedDict` with required fields `messages` and `chat_profile`; concrete
workflows extend it with further plain-valued fields (e.g. `chat_model` in
`simple_chat.py`), modelled here by the `extra` association list. -/

structure BaseState where
  messages : List Message
  chat_profile : String
  extra : List (String × PVal) := []
deriving DecidableEq, Repr

/-- The plain record produced by `StateSerializer.serialize`: the state dict
with `messages` replaced by dumped message records. -/
structure StateRecord where
  messages : List MsgRecord
  chat_profile : String
  extra : List (String × PVal) := []
deriving DecidableEq, Repr

namespace StateSerializer

/-- `StateSerializer.serialize`: shallow-copy the state dict
(`d = dict(state)`) and replace `messages` by `[m.model_dump() for m in ...]`;
all other fields are copied verbatim. -/
def serialize (s : BaseState) : StateRecord :=
  { messages := s.messages.map Message.model_dump
    chat_profile := s.chat_profile
    extra := s.extra }

/-- `StateSerializer.deserialize`: replace `messages` by the deserialized
message instances, then build the state from the remaining fields
(`state_class(**raw)`; the `TypedDict` constructor packages the fields
unchanged, so the `state_class` argument is the state-shape record built
here).  A message validation error aborts the whole reconstruction. -/
def deserialize (r : StateRecord) : Except DeserError BaseState :=
  match deserializeMessages r.messages with
  | .error e => .error e
  | .ok ms => .ok { messages := ms, chat_profile := r.chat_profile, extra := r.extra }

end StateSerializer

/-! ## Tool dispatcher (`src/tools/tool_node.py` `BasicToolNode`) -/

/-- A tool callable together with its `__name__` (used as the dispatch key
in `{tool.__name__: tool for tool in tools}`).  The async callable is
modelled by its result function from the call's argument mapping. -/
structure NamedTool where
  name : String
  fn : List (String × PVal) → PVal

/-- `BasicToolNode`: holds `tools_by_name`, the dict built from the tool
list (dict-comprehension semantics: later duplicates overwrite). -/
structure BasicToolNode where
  tools_by_name : List (String × NamedTool)

/-- `BasicToolNode.__init__`: `{tool.__name__: tool for tool in tools}`. -/
def BasicToolNode.ofTools (tools : List NamedTool) : BasicToolNode :=
  { tools_by_name := tools.foldl (fun d t => Dict.insert d t.name t) [] }

/-- Errors raised by `BasicToolNode.ainvoke`: the explicit
`ValueError("No messages found in input")` guard, and the `KeyError` from
`self.tools_by_name[tool_call["name"]]` (the spec's `UnknownTool`). -/
inductive ToolNodeError where
  | noMessages
  | unknownTool (name : String)
deriving DecidableEq, Repr

/-- The `inputs` mapping: `inputs.get("messages", [])` — an absent key and
an empty sequence are indistinguishable downstream, both give `[]`. -/
structure ToolNodeInput where
  messages : List Message
deriving DecidableEq, Repr

/-- The returned mapping `{"messages": outputs}`. -/
structure MessagesOutput where
  messages : List Message
deriving DecidableEq, Repr

/-- The loop body of `BasicToolNode.ainvoke`: for each `tool_call` of the
last message, in order, look the callable up by name (`KeyError` →
`unknownTool`, aborting the whole dispatch), invoke it with the call's
`args`, and append
`ToolMessage(content=json.dumps(result), name=..., tool_call_id=tool_call["id"])`.
The `cl.Step` UI context manager around each call has no effect on the
returned mapping and is not modelled. -/
def runToolCalls (tbl : List (String × NamedTool)) :
    List ToolCall → Except ToolNodeError (List Message)
  | [] => .ok []
  | tc :: rest =>
      match Dict.get? tbl tc.name with
      | none => .error (.unknownTool tc.name)
      | some tool =>
          let tool_result := tool.fn tc.args
          let msg := Message.tool (PVal.jsonEncode tool_result) (some tc.name) tc.id
          match runToolCalls tbl rest with
          | .error e => .error e
          | .ok ms => .ok (msg :: ms)

/-- `BasicToolNode.ainvoke`: raise if `messages` is empty, else dispatch the
last message's tool calls (`message = messages[-1]`) and return
`{"messages": outputs}`. -/
def BasicToolNode.ainvoke (node : BasicToolNode) (inputs : ToolNodeInput) :
    Except ToolNodeError MessagesOutput :=
  match inputs.messages.getLast? with
  | none => .error .noMessages
  | some message =>
      (runToolCalls node.tools_by_name message.tool_calls).map MessagesOutput.mk

/-! ## Routing (`src/workflows/base.py` `BaseWorkflow.tool_routing`) -/

/-- The routing decision: the `"tools"` node name or the langgraph `END`
sentinel. -/
inductive Route where
  | tools
  | END
deriving DecidableEq, Repr

/-- `BaseWorkflow.tool_routing`: if `state["messages"]` is empty (or
absent), `END`; else inspect the last message: a truthy
`getattr(ai_message, "tool_calls", None)` (a non-empty tool-call list)
routes to `"tools"`, anything else to `END`. -/
def BaseWorkflow.tool_routing (state : BaseState) : Route :=
  match state.messages.getLast? with
  | none => .END
  | some ai_message => if ai_message.tool_calls = [] then .END else .tools

/-! ## Workflow registry (`src/workflows/registry.py`) -/

/-- A workflow class, abstracted to what the registry observes: its
`name()` classmethod and an identity distinguishing the class (so that
instances of distinct classes are distinguishable). -/
structure WorkflowClass where
  name : String
  classId : String
deriving DecidableEq, Repr

/-- `workflow_cls()`: the instance constructed by a class. -/
structure WorkflowInstance where
  ofClass : WorkflowClass
deriving DecidableEq, Repr

def WorkflowClass.instantiate (c : WorkflowClass) : WorkflowInstance :=
  { ofClass := c }

/-- `WorkflowMeta` (frozen dataclass). -/
structure WorkflowMeta where
  name : String
  workflow_cls : WorkflowClass
deriving DecidableEq, Repr

/-- `WorkflowRegistry._items`: the class-level dict. -/
abbrev Registry := List (String × WorkflowMeta)

/-- `ValueError(f"Workflow '{name}' is not registered")` (the spec's
`UnregisteredWorkflow`). -/
inductive RegistryError where
  | unregisteredWorkflow (name : String)
deriving DecidableEq, Repr

namespace WorkflowRegistry

/-- `WorkflowRegistry.register`:
`cls._items[name] = WorkflowMeta(name=name, workflow_cls=workflow_cls)`. -/
def register (items : Registry) (workflow_cls : WorkflowClass) : Registry :=
  Dict.insert items workflow_cls.name
    { name := workflow_cls.name, workflow_cls := workflow_cls }

/-- `WorkflowRegistry.create`: raise if `name not in cls._items`, else
instantiate the registered class.  It only reads `_items` (the registry is
passed read-only and returned unchanged by construction). -/
def create (items : Registry) (name : String) : Except RegistryError WorkflowInstance :=
  match Dict.get? items name with
  | none => .error (.unregisteredWorkflow name)
  | some meta => .ok meta.workflow_cls.instantiate

end WorkflowRegistry

/-! ## Session orchestrator handlers (`src/ui/chainlit_handlers.py`) -/

/-- The persisted record `{thread_id, workflow, state}` as returned by
`GraphStateRepository.get`. -/
structure PersistedRecord where
  thread_id : String
  workflow : String
  state : StateRecord
deriving DecidableEq, Repr

/-- What `cl.user_session.set("state", ...)` can hold: a typed in-memory
state (messages are `Message` objects) or a raw plain record (messages are
dumped dicts), depending on which code path installed it. -/
inductive ActiveState where
  | typed (s : BaseState)
  | raw (r : StateRecord)
deriving DecidableEq, Repr

/-- `on_chat_resume`, after `repo.get` returned `db_graph` (modelled as the
`Option` argument): if no record, return with no session installed;
otherwise the handler computes `GraphState = workflow.create_default_state().__class__`
(an unused variable) and then installs the record's state verbatim —
`state = db_graph.state; cl.user_session.set("state", state)` —
without ever calling `StateSerializer.deserialize`, so the installed
active state is the raw record. -/
def on_chat_resume (db_graph : Option PersistedRecord) : Option ActiveState :=
  match db_graph with
  | none => none
  | some g => some (.raw g.state)

/-- The heterogeneous values a state dict holds, as seen by the
settings-update handler: the message list or a plain value. -/
inductive StateVal where
  | msgs (ms : List Message)
  | pval (v : PVal)
deriving DecidableEq, Repr

/-- The active state as the Python dict the handlers manipulate. -/
def BaseState.toDict (s : BaseState) : List (String × StateVal) :=
  ("messages", .msgs s.messages) :: ("chat_profile", .pval (.str s.chat_profile))
    :: s.extra.map (fun p => (p.1, .pval p.2))

/-- `update_state_by_settings`: for each key of the settings mapping, in
order, overwrite `state[key]` when `key in state`, else ignore the key;
the updated dict is stored back as the active state. -/
def update_state_by_settings (state : List (String × StateVal))
    (settings_ : List (String × StateVal)) : List (String × StateVal) :=
  settings_.foldl
    (fun st kv => if Dict.containsKey st kv.1 then Dict.insert st kv.1 kv.2 else st)
    state

/-! ## Concrete example inputs (used by witnesses and counterexamples) -/

/-- A persisted message record with the untrusted tag `"__import__"`. -/
def impRecord : MsgRecord := { type := some "__import__", content := "x" }

/-- A persisted message record with the tag `"exec"`, outside the closed set. -/
def execRecord : MsgRecord := { type := some "exec", content := "y" }

/-- A state drawing on all four known message variants, with an extension
field, as `simple_chat.py`'s `GraphState` extends `BaseState` with
`chat_model`. -/
def exStateC2 : BaseState :=
  { messages :=
      [ .system "You're a helpful assistant."
      , .human "what time is it?"
      , .ai "" [{ name := "get_datetime_now", args := [], id := "call_1" }]
      , .tool "\"2026-10-12\"" (some "get_datetime_now") "call_1" ]
    chat_profile := "Simple Chat"
    extra := [("chat_model", .str "gpt-4o")] }

/-- The pre-serialize state used for the resume scenario. -/
def exStateC3 : BaseState :=
  { messages := [.human "Hi", .ai "Hello!" []]
    chat_profile := "Simple Chat"
    extra := [("chat_model", .str "gpt-4o")] }

/-- The persisted record for the resume scenario: the serialized state
upserted under a thread id. -/
def exPersisted : PersistedRecord :=
  { thread_id := "t1", workflow := "Simple Chat", state := StateSerializer.serialize exStateC3 }

/-- A state with empty `messages`. -/
def exEmptyState : BaseState := { messages := [], chat_profile := "Simple Chat" }

/-- A state whose last message is an AI message with one tool-call request
named `get_datetime_now`. -/
def exToolCallState : BaseState :=
  { messages :=
      [ .human "what time is it?"
      , .ai "" [{ name := "get_datetime_now", args := [], id := "call_1" }] ]
    chat_profile := "Simple Chat" }

/-- A state whose last message is an AI message with no tool-call requests. -/
def exNoCallState : BaseState :=
  { messages := [.human "Hi", .ai "Hello!" []], chat_profile := "Simple Chat" }

/-- The repository's one registered tool, `get_datetime_now`, modelled as
returning a fixed timestamp string. -/
def exDatetimeTool : NamedTool :=
  { name := "get_datetime_now", fn := fun _ => .str "2026-10-12 10:00:00" }

/-- The simple-chat workflow's tool node: `BasicToolNode([get_datetime_now])`. -/
def exNode : BasicToolNode := BasicToolNode.ofTools [exDatetimeTool]

/-- A tool-call request naming a tool absent from the dispatcher's table. -/
def exBadCall : ToolCall := { name := "nonexistent_tool", args := [], id := "call_9" }

/-- Dispatcher input whose last message requests an unregistered tool. -/
def exBadInputs : ToolNodeInput :=
  { messages := [.human "?", .ai "" [exBadCall]] }

/-- A tool-call request naming the registered tool. -/
def exGoodCall : ToolCall := { name := "get_datetime_now", args := [], id := "call_1" }

/-- Dispatcher input whose last message requests the registered tool. -/
def exGoodInputs : ToolNodeInput :=
  { messages := [.human "what time is it?", .ai "" [exGoodCall]] }

/-- Dispatcher input with an empty message sequence. -/
def exEmptyInputs : ToolNodeInput := { messages := [] }

/-- Two distinct workflow classes declaring the same name. -/
def exClassA : WorkflowClass := { name := "Simple Chat", classId := "SimpleChatWorkflowV1" }

def exClassB : WorkflowClass := { name := "Simple Chat", classId := "SimpleChatWorkflowV2" }

/-- A registry holding one workflow. -/
def exRegistry : Registry := WorkflowRegistry.register [] exClassA

/-- The settings-update scenario: the resumed simple-chat state as a dict. -/
def exStateDict : List (String × StateVal) := BaseState.toDict exStateC3

/-- A settings mapping touching one existing key and one unknown key. -/
def exSettings : List (String × StateVal) :=
  [("chat_model", .pval (.str "gpt-5")), ("temperature", .pval (.int 1))]

/-! ## Dictionary lemmas -/

namespace Dict

variable {α : Type}

theorem get?_insert_self (d : List (String × α)) (k : String) (v : α) :
    get? (insert d k v) k = some v := by
  induction d with
  | nil => simp [insert, get?]
  | cons hd tl ih =>
      obtain ⟨k', v'⟩ := hd
      by_cases h : k' = k
      · simp [insert, h, get?]
      · simp [insert, h, get?, ih]

theorem get?_insert_ne (d : List (String × α)) (k k' : String) (v : α) (h : k ≠ k') :
    get? (insert d k v) k' = get? d k' := by
  induction d with
  | nil => simp [insert, get?, h]
  | cons hd tl ih =>
      obtain ⟨k1, v1⟩ := hd
      by_cases h1 : k1 = k
      · subst h1
        simp [insert, get?, h]
      · by_cases h2 : k1 = k'
        · subst h2
          simp [insert, get?, h1]
        · simp [insert, h1, get?, h2, ih]

theorem containsKey_insert (d : List (String × α)) (k k' : String) (v : α) :
    containsKey (insert d k v) k' = (containsKey d k' || decide (k = k')) := by
  induction d with
  | nil => simp [insert, containsKey]
  | cons hd tl ih =>
      obtain ⟨k1, v1⟩ := hd
      by_cases h1 : k1 = k
      · subst h1
        by_cases h2 : k1 = k'
        · subst h2
          simp [insert, containsKey]
        · simp [insert, containsKey, h2]
      · by_cases h2 : k1 = k'
        · subst h2
          simp [insert, containsKey, h1]
        · simp [insert, h1, containsKey, h2, ih]

theorem containsKey_insert_of_mem (d : List (String × α)) (k k' : String) (v : α)
    (h : containsKey d k = true) :
    containsKey (insert d k v) k' = containsKey d k' := by
  rw [containsKey_insert]
  by_cases hk : k = k'
  · subst hk
    simp [h]
  · simp [hk]

theorem keysCount_insert_self (d : List (String × α)) (k : String) (v : α) :
    keysCount (insert d k v) k = max 1 (keysCount d k) := by
  induction d with
  | nil => simp [insert, keysCount]
  | cons hd tl ih =>
      obtain ⟨k1, v1⟩ := hd
      by_cases h1 : k1 = k
      · subst h1
        simp [insert, keysCount]
      · simp only [insert, if_neg h1, keysCount, ih]
        omega

theorem keysCount_eq_zero_of_not_mem (d : List (String × α)) (k : String)
    (h : k ∉ d.map Prod.fst) :
    keysCount d k = 0 := by
  induction d with
  | nil => simp [keysCount]
  | cons hd tl ih =>
      obtain ⟨k1, v1⟩ := hd
      simp only [List.map_cons, List.mem_cons] at h
      push_neg at h
      have h1 : ¬ k1 = k := fun hc => h.1 hc.symm
      simp only [keysCount, if_neg h1, ih h.2]

theorem keysCount_le_one_of_nodup (d : List (String × α)) (k : String)
    (h : (d.map Prod.fst).Nodup) :
    keysCount d k ≤ 1 := by
  induction d with
  | nil => simp [keysCount]
  | cons hd tl ih =>
      obtain ⟨k1, v1⟩ := hd
      simp only [List.map_cons, List.nodup_cons] at h
      by_cases hk : k1 = k
      · subst hk
        have h0 := keysCount_eq_zero_of_not_mem tl k1 h.1
        simp [keysCount, h0]
      · simp only [keysCount, if_neg hk]
        have := ih h.2
        omega

end Dict

/-! ## Serializer lemmas -/

/-- The class selected by a known variant's own dumped tag validates the
dump back to the original message. -/
theorem selectMsgCls_model_dump (m : Message) (h : m.isKnownVariant = true) :
    StateSerializer.selectMsgCls m.model_dump.type m.model_dump = .ok m := by
  cases m with
  | system c => rfl
  | human c => rfl
  | ai c tcs => rfl
  | tool c n id => rfl
  | base t c => simp [Message.isKnownVariant] at h

/-- Deserializing the dumps of known-variant messages recovers them exactly. -/
theorem deserializeMessages_model_dump (ms : List Message)
    (h : ∀ m ∈ ms, m.isKnownVariant = true) :
    StateSerializer.deserializeMessages (ms.map Message.model_dump) = .ok ms := by
  induction ms with
  | nil => rfl
  | cons m rest ih =>
      have h1 := h m (List.mem_cons_self m rest)
      have h2 : ∀ x ∈ rest, x.isKnownVariant = true :=
        fun x hx => h x (List.mem_cons_of_mem m hx)
      simp [StateSerializer.deserializeMessages, selectMsgCls_model_dump m h1, ih h2]

/-! ## Claim C1 -/

/-- **C1 (counterexample).** The claim states that a record tagged
`"__import__"` fails deserialization with `UnknownMessageVariant`; in fact
`_deserialize_messages` succeeds on it, constructing a generic
`BaseMessage` carrying the tag: `_message_type_map.get` falls back to the
`BaseMessage` class. -/
theorem C1_counterexample :
    StateSerializer.deserializeMessages [impRecord] =
      .ok [Message.base "__import__" "x"] := by
  rfl

/-- **C1 (amended).** For every persisted message record whose tag is
present but outside the closed set {system, human, ai, tool},
`_deserialize_messages` does not fail: it falls back to the generic
`BaseMessage` class, which validates the record into a base message
carrying the unknown tag verbatim.  It never constructs a message type
selected by the untrusted tag — the four variant classes are chosen only
for their own exact tags. -/
theorem C1_unknown_tag_falls_back_to_base (r : MsgRecord) (t : String)
    (h1 : r.type = some t)
    (hs : t ≠ "system") (hh : t ≠ "human") (ha : t ≠ "ai") (ht : t ≠ "tool") :
    StateSerializer.deserializeMessages [r] = .ok [Message.base t r.content] := by
  have hsel : StateSerializer.selectMsgCls r.type r = .ok (.base t r.content) := by
    rw [h1]
    simp [StateSerializer.selectMsgCls, hh, ha, ht, hs, BaseMessage.model_validate, h1]
  simp [StateSerializer.deserializeMessages, hsel]

/-- **C1 (witness).** The amended claim at the concrete tag `"exec"`. -/
theorem C1_witness :
    StateSerializer.deserializeMessages [execRecord] = .ok [Message.base "exec" "y"] :=
  C1_unknown_tag_falls_back_to_base execRecord "exec" rfl
    (by decide) (by decide) (by decide) (by decide)

/-! ## Claim C2 -/

/-- **C2.** For every state whose messages are all drawn from the four
known variants {System, Human, AI, Tool},
`deserialize(serialize(s), stateShape) == s`: the messages round-trip
through `model_dump`/`model_validate`, and every other field — including
extension fields besides `messages` and `chat_profile` — is copied
verbatim in both directions. -/
theorem C2_serialize_roundtrip (s : BaseState)
    (h : ∀ m ∈ s.messages, m.isKnownVariant = true) :
    StateSerializer.deserialize (StateSerializer.serialize s) = .ok s := by
  simp [StateSerializer.serialize, StateSerializer.deserialize,
    deserializeMessages_model_dump s.messages h]

/-- **C2 (witness).** The round trip at a concrete state holding all four
variants and a `chat_model` extension field. -/
theorem C2_witness :
    StateSerializer.deserialize (StateSerializer.serialize exStateC2) = .ok exStateC2 :=
  C2_serialize_roundtrip exStateC2 (by decide)

/-! ## Claim C3 -/

/-- **C3 (code evaluation at the failing input).** The claim says resume
deserializes the persisted record's state through the State Serializer
before installing it, so the reconstructed state's `messages` are typed
`Message` objects equal to the pre-serialize messages.  Evaluating the
embedded `on_chat_resume` on a present record shows the code installs the
raw serialized record verbatim (never a typed state), even though
deserialization of that same record was available and would have
reconstructed the pre-serialize state exactly. -/
theorem C3_resume_installs_raw_record :
    on_chat_resume (some exPersisted) =
      some (.raw (StateSerializer.serialize exStateC3)) ∧
    StateSerializer.deserialize (StateSerializer.serialize exStateC3) = .ok exStateC3 ∧
    ∀ s : BaseState,
      on_chat_resume (some exPersisted) ≠ some (ActiveState.typed s) := by
  refine ⟨rfl, by rfl, ?_⟩
  intro s h
  rw [show on_chat_resume (some exPersisted) =
      some (.raw (StateSerializer.serialize exStateC3)) from rfl] at h
  exact ActiveState.noConfusion (Option.some.inj h)

/-! ## Claim C4 -/

/-- **C4.** `tool_routing` is a total, side-effect-free function of the
state (it is a plain function into `Route`, so it never raises): a state
with empty (or absent, which `state.get("messages", [])` collapses to
empty) `messages` routes to the terminate sentinel `END`; a state whose
last message carries one or more tool-call requests routes to `"tools"`;
every other state routes to `END`. -/
theorem C4_tool_routing_total (s : BaseState) :
    (s.messages = [] → BaseWorkflow.tool_routing s = Route.END) ∧
    (∀ m, s.messages.getLast? = some m → m.tool_calls ≠ [] →
      BaseWorkflow.tool_routing s = Route.tools) ∧
    (∀ m, s.messages.getLast? = some m → m.tool_calls = [] →
      BaseWorkflow.tool_routing s = Route.END) := by
  refine ⟨?_, ?_, ?_⟩
  · intro h
    simp [BaseWorkflow.tool_routing, h]
  · intro m hm hc
    simp [BaseWorkflow.tool_routing, hm, hc]
  · intro m hm hc
    simp [BaseWorkflow.tool_routing, hm, hc]

/-- **C4 (witness).** The three routing outcomes at concrete states: empty
messages, a trailing AI message with a `get_datetime_now` tool call, and a
trailing AI message without tool calls. -/
theorem C4_witness :
    BaseWorkflow.tool_routing exEmptyState = Route.END ∧
    BaseWorkflow.tool_routing exToolCallState = Route.tools ∧
    BaseWorkflow.tool_routing exNoCallState = Route.END :=
  ⟨(C4_tool_routing_total exEmptyState).1 rfl,
   (C4_tool_routing_total exToolCallState).2.1
     (.ai "" [{ name := "get_datetime_now", args := [], id := "call_1" }]) rfl (by decide),
   (C4_tool_routing_total exNoCallState).2.2 (.ai "Hello!" []) rfl rfl⟩

/-! ## Claim C10 -/

/-- **C10.** If the input mapping's `messages` sequence is empty (or
absent — `inputs.get("messages", [])` makes them indistinguishable),
`BasicToolNode.ainvoke` raises `ValueError("No messages found in input")`
and emits no Tool messages: it never returns an `ok` result, empty or
otherwise. -/
theorem C10_empty_messages_raises (node : BasicToolNode) (inputs : ToolNodeInput)
    (h : inputs.messages = []) :
    BasicToolNode.ainvoke node inputs = .error .noMessages ∧
    ∀ out, BasicToolNode.ainvoke node inputs ≠ .ok out := by
  have hmain : BasicToolNode.ainvoke node inputs = .error .noMessages := by
    simp [BasicToolNode.ainvoke, h]
  refine ⟨hmain, fun out hout => ?_⟩
  rw [hmain] at hout
  exact Except.noConfusion hout

/-- **C10 (witness).** The dispatcher on a concrete empty input. -/
theorem C10_witness :
    BasicToolNode.ainvoke exNode exEmptyInputs = .error .noMessages ∧
    BasicToolNode.ainvoke exNode exEmptyInputs ≠ .ok ⟨[]⟩ :=
  ⟨(C10_empty_messages_raises exNode exEmptyInputs rfl).1,
   (C10_empty_messages_raises exNode exEmptyInputs rfl).2 ⟨[]⟩⟩

/-! ## Claim C5 -/

/-- If any request in the list names a tool absent from the table, the
whole dispatch loop fails with `unknownTool`. -/
theorem runToolCalls_unknown (tbl : List (String × NamedTool)) (tcs : List ToolCall)
    (tc : ToolCall) (h1 : tc ∈ tcs) (h2 : Dict.get? tbl tc.name = none) :
    ∃ n, runToolCalls tbl tcs = .error (.unknownTool n) := by
  induction tcs with
  | nil => cases h1
  | cons hd rest ih =>
      cases List.mem_cons.mp h1 with
      | inl heq =>
          subst heq
          exact ⟨tc.name, by simp [runToolCalls, h2]⟩
      | inr hmem =>
          match hhd : Dict.get? tbl hd.name with
          | none => exact ⟨hd.name, by simp [runToolCalls, hhd]⟩
          | some tool =>
              obtain ⟨n, hn⟩ := ih hmem
              exact ⟨n, by simp [runToolCalls, hhd, hn]⟩

/-- **C5.** If any tool-call request in the last message names a tool
absent from `tools_by_name`, dispatch for the whole turn fails with
`UnknownTool` (the `KeyError` from the dict lookup) and no Tool messages
are emitted into state: the call never returns an `ok` mapping, so even
the Tool messages built for requests processed before the unknown one are
discarded. -/
theorem C5_unknown_tool_aborts (node : BasicToolNode) (inputs : ToolNodeInput)
    (m : Message) (tc : ToolCall)
    (h1 : inputs.messages.getLast? = some m)
    (h2 : tc ∈ m.tool_calls)
    (h3 : Dict.get? node.tools_by_name tc.name = none) :
    (∃ n, BasicToolNode.ainvoke node inputs = .error (.unknownTool n)) ∧
    ∀ out, BasicToolNode.ainvoke node inputs ≠ .ok out := by
  obtain ⟨n, hn⟩ := runToolCalls_unknown node.tools_by_name m.tool_calls tc h2 h3
  have hmain : BasicToolNode.ainvoke node inputs = .error (.unknownTool n) := by
    simp [BasicToolNode.ainvoke, h1, hn, Except.map]
  refine ⟨⟨n, hmain⟩, fun out hout => ?_⟩
  rw [hmain] at hout
  exact Except.noConfusion hout

/-- **C5 (witness).** A request naming `"nonexistent_tool"` against the
simple-chat tool node: dispatch errors and returns no `ok` mapping. -/
theorem C5_witness :
    BasicToolNode.ainvoke exNode exBadInputs ≠ .ok ⟨[]⟩ ∧
    BasicToolNode.ainvoke exNode exBadInputs = .error (.unknownTool "nonexistent_tool") :=
  ⟨(C5_unknown_tool_aborts exNode exBadInputs (.ai "" [exBadCall]) exBadCall
      rfl (by decide) rfl).2 ⟨[]⟩,
   by rfl⟩

/-! ## Claim C6 -/

/-- If every request resolves (to `f tc`), the loop emits exactly one Tool
message per request, in request order. -/
theorem runToolCalls_all_known (tbl : List (String × NamedTool)) (f : ToolCall → NamedTool)
    (tcs : List ToolCall)
    (h : ∀ tc ∈ tcs, Dict.get? tbl tc.name = some (f tc)) :
    runToolCalls tbl tcs =
      .ok (tcs.map fun tc =>
        Message.tool (PVal.jsonEncode ((f tc).fn tc.args)) (some tc.name) tc.id) := by
  induction tcs with
  | nil => rfl
  | cons hd rest ih =>
      have hh := h hd (List.mem_cons_self hd rest)
      have ht : ∀ tc ∈ rest, Dict.get? tbl tc.name = some (f tc) :=
        fun tc htc => h tc (List.mem_cons_of_mem hd htc)
      simp [runToolCalls, hh, ih ht]

/-- **C6.** When every requested tool is registered (each request `tc`
resolves in `tools_by_name` to a callable `f tc`), the dispatcher returns
`{"messages": outputs}` with exactly one Tool message per tool-call
request of the last message, in request order, where each Tool message's
`tool_call_id` is the originating request's `id` and its `content` is the
JSON encoding of the resolved tool's result on the request's `args`. -/
theorem C6_one_tool_message_per_request (node : BasicToolNode) (inputs : ToolNodeInput)
    (m : Message) (f : ToolCall → NamedTool)
    (h1 : inputs.messages.getLast? = some m)
    (h2 : ∀ tc ∈ m.tool_calls, Dict.get? node.tools_by_name tc.name = some (f tc)) :
    BasicToolNode.ainvoke node inputs =
      .ok ⟨m.tool_calls.map fun tc =>
        Message.tool (PVal.jsonEncode ((f tc).fn tc.args)) (some tc.name) tc.id⟩ := by
  simp [BasicToolNode.ainvoke, h1,
    runToolCalls_all_known node.tools_by_name f m.tool_calls h2, Except.map]

/-- **C6 (witness).** The simple-chat node dispatching one
`get_datetime_now` request: one Tool message, correlated by `call_1`, whose
content is the JSON-encoded result. -/
theorem C6_witness :
    BasicToolNode.ainvoke exNode exGoodInputs =
      .ok ⟨[Message.tool "\"2026-10-12 10:00:00\"" (some "get_datetime_now") "call_1"]⟩ :=
  C6_one_tool_message_per_request exNode exGoodInputs (.ai "" [exGoodCall])
    (fun _ => exDatetimeTool) rfl
    (fun tc htc => by rw [List.mem_singleton.mp htc]; rfl)

/-! ## Claim C7 -/

/-- **C7.** For any two workflow classes `A` and `B` declaring the same
name, `register(A)` then `register(B)` leaves the registry (whose keys
were unique, as a Python `dict`'s always are) with exactly one entry under
that name, and `create(name)` then instantiates `B`: last registration
wins. -/
theorem C7_last_registration_wins (items : Registry) (A B : WorkflowClass) (n : String)
    (hA : A.name = n) (hB : B.name = n) (hnd : (items.map Prod.fst).Nodup) :
    Dict.keysCount
      (WorkflowRegistry.register (WorkflowRegistry.register items A) B) n = 1 ∧
    WorkflowRegistry.create
      (WorkflowRegistry.register (WorkflowRegistry.register items A) B) n =
      .ok B.instantiate := by
  constructor
  · unfold WorkflowRegistry.register
    rw [hA, hB, Dict.keysCount_insert_self, Dict.keysCount_insert_self]
    have := Dict.keysCount_le_one_of_nodup items n hnd
    omega
  · unfold WorkflowRegistry.register WorkflowRegistry.create
    rw [hB, Dict.get?_insert_self]

/-- **C7 (witness).** Two concrete workflow classes both named
`"Simple Chat"`, registered into the empty startup registry. -/
theorem C7_witness :
    Dict.keysCount
      (WorkflowRegistry.register (WorkflowRegistry.register [] exClassA) exClassB)
      "Simple Chat" = 1 ∧
    WorkflowRegistry.create
      (WorkflowRegistry.register (WorkflowRegistry.register [] exClassA) exClassB)
      "Simple Chat" = .ok exClassB.instantiate :=
  C7_last_registration_wins [] exClassA exClassB "Simple Chat" rfl rfl (by simp)

/-! ## Claim C8 -/

/-- **C8.** For every name not present in the registry,
`WorkflowRegistry.create` fails with `UnregisteredWorkflow` (the raised
`ValueError`), returning no instance.  `create` only reads `_items` — in
this embedding it is a pure function of the registry, which is therefore
unchanged by the failed call. -/
theorem C8_create_unregistered_fails (items : Registry) (name : String)
    (h : Dict.get? items name = none) :
    WorkflowRegistry.create items name = .error (.unregisteredWorkflow name) := by
  simp [WorkflowRegistry.create, h]

/-- **C8 (witness).** Looking up a never-registered name in a registry
holding only `"Simple Chat"`. -/
theorem C8_witness :
    WorkflowRegistry.create exRegistry "Deep Research" =
      .error (.unregisteredWorkflow "Deep Research") :=
  C8_create_unregistered_fails exRegistry "Deep Research" rfl

/-! ## Claim C9 -/

/-- Unfolding one settings key. -/
theorem update_state_by_settings_cons (state : List (String × StateVal))
    (hd : String × StateVal) (rest : List (String × StateVal)) :
    update_state_by_settings state (hd :: rest) =
      update_state_by_settings
        (if Dict.containsKey state hd.1 then Dict.insert state hd.1 hd.2 else state)
        rest := rfl

/-- Keys named by no settings entry keep their bindings. -/
theorem update_unchanged_of_not_key (state settings_ : List (String × StateVal))
    (k : String) (h : ∀ p ∈ settings_, p.1 ≠ k) :
    Dict.get? (update_state_by_settings state settings_) k = Dict.get? state k := by
  induction settings_ generalizing state with
  | nil => rfl
  | cons hd rest ih =>
      have hhd : hd.1 ≠ k := h hd (List.mem_cons_self hd rest)
      have hrest : ∀ p ∈ rest, p.1 ≠ k := fun p hp => h p (List.mem_cons_of_mem hd hp)
      rw [update_state_by_settings_cons, ih _ hrest]
      by_cases hc : Dict.containsKey state hd.1
      · simp [hc, Dict.get?_insert_ne state hd.1 k hd.2 hhd]
      · simp [hc]

/-- The settings update never adds or removes a state key. -/
theorem update_containsKey (state settings_ : List (String × StateVal)) (k : String) :
    Dict.containsKey (update_state_by_settings state settings_) k =
      Dict.containsKey state k := by
  induction settings_ generalizing state with
  | nil => rfl
  | cons hd rest ih =>
      rw [update_state_by_settings_cons, ih]
      by_cases hc : Dict.containsKey state hd.1
      · simp [hc, Dict.containsKey_insert_of_mem state hd.1 k hd.2 hc]
      · simp [hc]

/-- A settings key that exists in the state ends up bound to the settings
value. -/
theorem update_overwrites (state settings_ : List (String × StateVal))
    (k : String) (v : StateVal)
    (hnd : (settings_.map Prod.fst).Nodup)
    (hmem : (k, v) ∈ settings_) (hck : Dict.containsKey state k = true) :
    Dict.get? (update_state_by_settings state settings_) k = some v := by
  induction settings_ generalizing state with
  | nil => cases hmem
  | cons hd rest ih =>
      simp only [List.map_cons, List.nodup_cons] at hnd
      rw [update_state_by_settings_cons]
      cases List.mem_cons.mp hmem with
      | inl heq =>
          have hdk : hd.1 = k := by rw [← heq]
          have h1 : ∀ p ∈ rest, p.1 ≠ k := by
            intro p hp hpk
            apply hnd.1
            rw [hdk, ← hpk]
            exact List.mem_map_of_mem Prod.fst hp
          rw [update_unchanged_of_not_key _ rest k h1, hdk, ← heq]
          simp [hck, Dict.get?_insert_self]
      | inr hmem' =>
          have hkmem : k ∈ rest.map Prod.fst := by
            have := List.mem_map_of_mem Prod.fst hmem'
            simpa using this
          have hk_ne : hd.1 ≠ k := fun hpk => hnd.1 (hpk ▸ hkmem)
          have hck' : Dict.containsKey
              (if Dict.containsKey state hd.1 then Dict.insert state hd.1 hd.2 else state)
              k = true := by
            by_cases hc : Dict.containsKey state hd.1
            · simp [hc, Dict.containsKey_insert_of_mem state hd.1 k hd.2 hc, hck]
            · simp [hc, hck]
          exact ih _ hnd.2 hmem' hck'

/-- **C9.** On a settings update: every settings key that exists in the
active state overwrites the state's binding with the new value; every
settings key not present in the state is ignored (it is not added); and
every state field whose key the update does not name — `messages` and
`chat_profile` included — is left unchanged. -/
theorem C9_settings_update (state settings_ : List (String × StateVal))
    (hnd : (settings_.map Prod.fst).Nodup) :
    (∀ k v, (k, v) ∈ settings_ → Dict.containsKey state k = true →
      Dict.get? (update_state_by_settings state settings_) k = some v) ∧
    (∀ k, Dict.containsKey state k = false →
      Dict.containsKey (update_state_by_settings state settings_) k = false) ∧
    (∀ k, (∀ p ∈ settings_, p.1 ≠ k) →
      Dict.get? (update_state_by_settings state settings_) k = Dict.get? state k) :=
  ⟨fun k v hm hc => update_overwrites state settings_ k v hnd hm hc,
   fun k hc => by rw [update_containsKey]; exact hc,
   fun k h => update_unchanged_of_not_key state settings_ k h⟩

/-- **C9 (witness).** A concrete resumed state and a settings mapping
touching the existing `chat_model` key and the unknown `temperature` key:
`chat_model` is overwritten, `temperature` is ignored, `messages` keeps
its binding. -/
theorem C9_witness :
    Dict.get? (update_state_by_settings exStateDict exSettings) "chat_model" =
      some (.pval (.str "gpt-5")) ∧
    Dict.containsKey (update_state_by_settings exStateDict exSettings) "temperature" = false ∧
    Dict.get? (update_state_by_settings exStateDict exSettings) "messages" =
      Dict.get? exStateDict "messages" :=
  ⟨(C9_settings_update exStateDict exSettings (by decide)).1 "chat_model"
      (.pval (.str "gpt-5")) (by decide) (by decide),
   (C9_settings_update exStateDict exSettings (by decide)).2.1 "temperature" (by decide),
   (C9_settings_update exStateDict exSettings (by decide)).2.2 "messages" (by decide)⟩

end AssistantBot
